import Mathlib

/-!
Shallow embedding of the ESP32 WiFi provisioning sketch
(src/code/wifi_config.ino).  Machine state (NVS preferences, the
in-memory credential copies, the web server / DNS / radio flags) is an
explicit record; the radio link is an oracle `net : Nat → Bool` giving
the link status as a function of milliseconds elapsed since the last
`WiFi.begin`, and the ArduinoJson parser is an oracle
`jp : String → Option (Option String × Option String)`.
-/

namespace WifiCfg

/-- CONNECT_TIMEOUT_MS from the sketch (ms). -/
def CONNECT_TIMEOUT_MS : Nat := 15000

/-- RECONNECT_INTERVAL_MS from the sketch (ms). -/
def RECONNECT_INTERVAL_MS : Nat := 15000

/-- The polling delay inside both bounded connect-wait loops: `delay(200)`. -/
def POLL_INTERVAL_MS : Nat := 200

/-- Enough polls of 200 ms to cover the whole 15000 ms window. -/
def WAIT_FUEL : Nat := 76

/-- The character class `isspace` used by Arduino `String::trim`. -/
def arduinoIsSpace (c : Char) : Bool :=
  c = ' ' || c = '\t' || c = '\n' || c = '\x0b' || c = '\x0c' || c = '\r'

/-- Drop leading and trailing `isspace` characters, as `String::trim`. -/
def trimChars (l : List Char) : List Char :=
  ((l.dropWhile arduinoIsSpace).reverse.dropWhile arduinoIsSpace).reverse

/-- Arduino `String::trim` on a Lean `String`. -/
def arduinoTrim (s : String) : String :=
  String.mk (trimChars s.toList)

/-- Arduino `String::replace("+"," ")`: both patterns are single characters,
so the replacement is a character map. -/
def plusToSpace (s : String) : String :=
  String.mk (s.toList.map (fun c => if c = '+' then ' ' else c))

/-- First index at which `needle` occurs in `hay` (Arduino `indexOf`). -/
def subIndexOf : List Char → List Char → Option Nat
  | [], needle => if needle.isEmpty then some 0 else none
  | c :: rest, needle =>
    if needle.isPrefixOf (c :: rest) then some 0
    else (subIndexOf rest needle).map (fun n => n + 1)

/-- Arduino `indexOf(needle, start)`: first occurrence at or after `start`. -/
def subIndexOfFrom (hay needle : List Char) (start : Nat) : Option Nat :=
  (subIndexOf (hay.drop start) needle).map (fun n => n + start)

/-- Radio mode, as set by `WiFi.mode` / `WiFi.softAP`. -/
inductive WifiMode
  | off
  | sta
  | ap
  | apsta
deriving DecidableEq, Repr

/-- Roles of the provisioning state machine (spec section 3). -/
inductive Role
  | Unprovisioned
  | Connecting
  | Connected
  | PortalActive
  | Reconnecting
deriving DecidableEq, Repr

/-- The sketch's machine state: the two NVS preference strings, the three
in-memory credential globals, the reconnect timestamp, and the web
server / DNS / radio flags. -/
structure Device where
  prefsSsid : String
  prefsPass : String
  savedSSID : String
  savedPASS : String
  haveSavedCredentials : Bool
  lastReconnectAttempt : Nat
  serverListening : Bool
  portalRoutesMounted : Bool
  apiRoutesMounted : Bool
  dnsRunning : Bool
  wifiMode : WifiMode
  softAPActive : Bool
deriving DecidableEq, Repr

/-- State at power-on, with the given NVS contents. -/
def initialDevice (ssid pass : String) : Device :=
  { prefsSsid := ssid
    prefsPass := pass
    savedSSID := ""
    savedPASS := ""
    haveSavedCredentials := false
    lastReconnectAttempt := 0
    serverListening := false
    portalRoutesMounted := false
    apiRoutesMounted := false
    dnsRunning := false
    wifiMode := WifiMode.off
    softAPActive := false }

/-- `loadCredentials()`: read NVS into the in-memory globals and set
`haveSavedCredentials` to whether the stored ssid is non-empty. -/
def loadCredentials (d : Device) : Device :=
  { d with
    savedSSID := d.prefsSsid
    savedPASS := d.prefsPass
    haveSavedCredentials := decide (0 < d.prefsSsid.length) }

/-- The spec's `load() -> Option<CredentialRecord>` view of
`loadCredentials`: the record, or none when `haveSavedCredentials`
comes out false. -/
def loadResult (d : Device) : Option (String × String) :=
  let d1 := loadCredentials d
  if d1.haveSavedCredentials then some (d1.savedSSID, d1.savedPASS) else none

/-- `saveCredentials(ssid, pass)`: write both NVS strings, mirror them in
memory, and set `haveSavedCredentials = true` unconditionally. -/
def saveCredentials (d : Device) (ssid pass : String) : Device :=
  { d with
    prefsSsid := ssid
    prefsPass := pass
    savedSSID := ssid
    savedPASS := pass
    haveSavedCredentials := true }

/-- `clearCredentials()`: `prefs.clear()` plus resetting the globals. -/
def clearCredentials (d : Device) : Device :=
  { d with
    prefsSsid := ""
    prefsPass := ""
    savedSSID := ""
    savedPASS := ""
    haveSavedCredentials := false }

/-- `startAPPortal()`: AP mode, softAP up, wildcard DNS, portal and API
routes mounted, `server.begin()`. -/
def startAPPortal (d : Device) : Device :=
  { d with
    wifiMode := WifiMode.ap
    softAPActive := true
    dnsRunning := true
    portalRoutesMounted := true
    apiRoutesMounted := true
    serverListening := true }

/-- `stopAPPortal()`: `server.stop()`, `dnsServer.stop()`,
`WiFi.softAPdisconnect(true)`.  Routes stay registered but the server no
longer listens. -/
def stopAPPortal (d : Device) : Device :=
  { d with
    serverListening := false
    dnsRunning := false
    softAPActive := false }

/-- `WiFi.mode(WIFI_STA)`: switching the radio to pure STA mode drops any
running soft AP. -/
def setModeSta (d : Device) : Device :=
  { d with wifiMode := WifiMode.sta, softAPActive := false }

/-- The boot-time connect wait of `setup()`:
`while (millis() - startAttempt < CONNECT_TIMEOUT_MS) { if connected break; delay(200); }`.
Returns the time at which control leaves the loop; `fuel` bounds the
number of iterations and is always given ≥ `WAIT_FUEL`, which the loop
never exhausts when started at 0. -/
def waitPoll (net : Nat → Bool) : Nat → Nat → Nat
  | 0, t => t
  | fuel + 1, t =>
    if t < CONNECT_TIMEOUT_MS then
      if net t then t else waitPoll net fuel (t + POLL_INTERVAL_MS)
    else t

/-- Exit time of the boot-time wait loop, started at elapsed time 0. -/
def bootWaitExit (net : Nat → Bool) : Nat :=
  waitPoll net WAIT_FUEL 0

/-- The submission-time connect wait of `handleWifiSubmit` /
`handleApiWifi`: same loop, but recording the `connected` flag set only
by an in-loop status check (no status re-check after the loop, unlike
`setup()`).  Returns (connected, exit time). -/
def submitPoll (net : Nat → Bool) : Nat → Nat → Bool × Nat
  | 0, t => (false, t)
  | fuel + 1, t =>
    if t < CONNECT_TIMEOUT_MS then
      if net t then (true, t) else submitPoll net fuel (t + POLL_INTERVAL_MS)
    else (false, t)

/-- `setup()`: load credentials; with a record, go STA, `WiFi.begin`, run
the bounded wait, then either mount the API routes and `server.begin()`
(connected) or tear the client mode down and start the AP portal.  With
no record, start the AP portal directly.  The returned `Role` is the
spec's name for the branch taken. -/
def setup (d0 : Device) (net : Nat → Bool) : Device × Role :=
  let d := loadCredentials d0
  if d.haveSavedCredentials then
    let d1 := setModeSta d
    let te := bootWaitExit net
    if net te then
      ({ d1 with apiRoutesMounted := true, serverListening := true }, Role.Connected)
    else
      (startAPPortal d1, Role.PortalActive)
  else
    (startAPPortal d, Role.PortalActive)

/-- One iteration of `loop()`'s reconnection logic, given the link status
and the current `millis()`.  Returns the new state and the credentials
passed to `WiFi.begin` when a reconnect attempt is issued. -/
def loopIter (d : Device) (linkUp : Bool) (now : Nat) :
    Device × Option (String × String) :=
  if (d.wifiMode = WifiMode.apsta || d.wifiMode = WifiMode.sta)
      && !linkUp && d.haveSavedCredentials then
    if RECONNECT_INTERVAL_MS < now - d.lastReconnectAttempt then
      ({ d with lastReconnectAttempt := now }, some (d.savedSSID, d.savedPASS))
    else (d, none)
  else (d, none)

/-- Run `loop()` at the given `millis()` instants with the link down
throughout; collect the times at which a join re-attempt was issued. -/
def loopRun (d : Device) : List Nat → Device × List Nat
  | [] => (d, [])
  | t :: ts =>
    let r := loopIter d false t
    let rest := loopRun r.1 ts
    (rest.1, match r.2 with
             | some _ => t :: rest.2
             | none => rest.2)

/-- An HTTP response as produced by `server.send(status, contentType, body)`. -/
structure HttpResponse where
  status : Nat
  contentType : String
  body : String
deriving DecidableEq, Repr

/-- JSON values stored by the sketch in a `StaticJsonDocument`. -/
inductive JVal
  | s (v : String)
  | b (v : Bool)
deriving DecidableEq, Repr

/-- ArduinoJson string escaping for the characters our values can hold. -/
def jsonEscapeChar (c : Char) : String :=
  if c = '\\' then "\\\\"
  else if c = '"' then "\\\""
  else if c = '\n' then "\\n"
  else if c = '\r' then "\\r"
  else if c = '\t' then "\\t"
  else String.mk [c]

/-- Escape a string for inclusion in serialized JSON. -/
def jsonEscape (v : String) : String :=
  String.join (v.toList.map jsonEscapeChar)

/-- Serialize one JSON value. -/
def serializeJVal : JVal → String
  | JVal.s v => "\"" ++ jsonEscape v ++ "\""
  | JVal.b true => "true"
  | JVal.b false => "false"

/-- `serializeJson` of a document, members in insertion order. -/
def serializeJson (kvs : List (String × JVal)) : String :=
  "\x7b" ++
    String.intercalate (",")
      (kvs.map (fun kv => "\"" ++ kv.1 ++ "\":" ++ serializeJVal kv.2)) ++
    "\x7d"

/-- `server.hasArg(k)` over the parsed argument list. -/
def hasArg (args : List (String × String)) (k : String) : Bool :=
  args.any (fun kv => kv.1 = k)

/-- `server.arg(k)`: the first value bound to `k`, or `""`. -/
def getArg (args : List (String × String)) (k : String) : String :=
  match args.find? (fun kv => kv.1 = k) with
  | some kv => kv.2
  | none => ""

/-- Result page bodies of `handleWifiSubmit` (content irrelevant to the
claims; status codes and state changes are what matters). -/
def submitOkHtml : String := "<html>Conectado correctamente</html>"

/-- Failure page body of `handleWifiSubmit`. -/
def submitFailHtml : String := "<html>Error al conectar</html>"

/-- `handleWifiSubmit()`: `POST /wifi` with form arguments.  400 when the
`ssid` argument is absent; otherwise trim both fields, save, stop the AP
portal, go STA, `WiFi.begin`, run the bounded wait, and on success
register the API routes (without `server.begin()`), on failure restart
the AP portal. -/
def handleWifiSubmit (d : Device) (args : List (String × String))
    (net : Nat → Bool) : Device × HttpResponse :=
  if !(hasArg args ("ssid")) then
    (d, { status := 400, contentType := "text/plain", body := "Falta ssid" })
  else
    let ssid := arduinoTrim (getArg args ("ssid"))
    let pass := arduinoTrim (getArg args ("pass"))
    let d1 := saveCredentials d ssid pass
    let d2 := stopAPPortal d1
    let d3 := setModeSta d2
    let r := submitPoll net WAIT_FUEL 0
    if r.1 then
      ({ d3 with apiRoutesMounted := true },
       { status := 200, contentType := "text/html", body := submitOkHtml })
    else
      (startAPPortal d3,
       { status := 200, contentType := "text/html", body := submitFailHtml })

/-- A `POST /api/wifi` request: whether the Content-Type header names
`application/json`, the raw body (`server.arg("plain")`, empty when
absent), and the parsed form arguments. -/
structure ApiRequest where
  contentTypeJson : Bool
  plain : String
  formArgs : List (String × String)
deriving DecidableEq, Repr

/-- The 400 response for undecodable JSON. -/
def jsonInvalidResp : HttpResponse :=
  { status := 400, contentType := "application/json",
    body := "\x7b\"error\":\"JSON invalido\"\x7d" }

/-- The 400 response when no ssid could be extracted. -/
def ssidRequiredResp : HttpResponse :=
  { status := 400, contentType := "application/json",
    body := "\x7b\"error\":\"ssid requerido\"\x7d" }

/-- The raw-body compatibility scan of `handleApiWifi`: find `key` by
substring search, cut at the next `&` (or end of body), and replace `+`
by spaces.  No percent-decoding is performed. -/
def rawScanField (p : String) (key : String) : Option String :=
  match subIndexOf p.toList key.toList with
  | none => none
  | some i =>
    let j := (subIndexOfFrom p.toList ['&'] i).getD p.toList.length
    some (plusToSpace
      (String.mk ((p.toList.drop (i + key.length)).take (j - (i + key.length)))))

/-- The credential-extraction chain of `handleApiWifi`: JSON body first
(`jp` is the ArduinoJson oracle; a parse error is 400), then form
arguments, then the raw-body scan; 400 when nothing yields an ssid. -/
def apiWifiParse (req : ApiRequest)
    (jp : String → Option (Option String × Option String)) :
    Except HttpResponse (String × String) :=
  let step1 : Except HttpResponse (Bool × String × String) :=
    if req.contentTypeJson && decide (0 < req.plain.length) then
      match jp req.plain with
      | none => Except.error jsonInvalidResp
      | some so => Except.ok (so.1.isSome, so.1.getD (""), so.2.getD (""))
    else Except.ok (false, "", "")
  match step1 with
  | Except.error e => Except.error e
  | Except.ok g =>
    if g.1 then Except.ok (g.2.1, g.2.2)
    else if hasArg req.formArgs ("ssid") then
      Except.ok (getArg req.formArgs ("ssid"), getArg req.formArgs ("pass"))
    else if decide (0 < req.plain.length) then
      match rawScanField req.plain ("ssid=") with
      | some s =>
        Except.ok (s, (rawScanField req.plain ("pass=")).getD g.2.2)
      | none => Except.error ssidRequiredResp
    else Except.error ssidRequiredResp

/-- `handleApiWifi()`: extract credentials, trim, save, go STA (dropping
any soft AP), `WiFi.begin`, run the bounded wait, and answer 200 with a
connected/failed JSON body.  The portal and server flags are never
touched here. -/
def handleApiWifi (d : Device) (req : ApiRequest)
    (jp : String → Option (Option String × Option String))
    (net : Nat → Bool) (ip : String) : Device × HttpResponse :=
  match apiWifiParse req jp with
  | Except.error e => (d, e)
  | Except.ok sp =>
    let ssid := arduinoTrim sp.1
    let pass := arduinoTrim sp.2
    let d1 := saveCredentials d ssid pass
    let d2 := setModeSta d1
    let r := submitPoll net WAIT_FUEL 0
    if r.1 then
      (d2, { status := 200, contentType := "application/json",
             body := serializeJson
               [("status", JVal.s ("connected")), ("ssid", JVal.s ssid),
                ("ip", JVal.s ip)] })
    else
      (d2, { status := 200, contentType := "application/json",
             body := serializeJson
               [("status", JVal.s ("failed")),
                ("reason", JVal.s ("No se pudo conectar con las credenciales"))] })

/-- Live radio information read by `handleStatus`. -/
structure WifiView where
  connected : Bool
  ssid : String
  ip : String
deriving DecidableEq, Repr

/-- `handleStatus()`: `GET /api/status`.  Always 200; connected shape
uses the live ssid/ip, disconnected shape reports the radio mode and the
in-memory saved ssid (always present, possibly empty). -/
def handleStatus (d : Device) (w : WifiView) : HttpResponse :=
  let kvs :=
    if w.connected then
      [("connected", JVal.b true), ("ssid", JVal.s w.ssid),
       ("ip", JVal.s w.ip)]
    else
      [("connected", JVal.b false),
       ("mode", JVal.s (if d.wifiMode = WifiMode.ap then "AP" else "STA")),
       ("saved_ssid", JVal.s d.savedSSID)]
  { status := 200, contentType := "application/json",
    body := serializeJson kvs }

/-- A device joined as a client with a saved record, as left by a
successful boot: used as a concrete state for witnesses. -/
def staDevice : Device :=
  { initialDevice ("home") ("pw") with
    wifiMode := WifiMode.sta
    savedSSID := "home"
    savedPASS := "pw"
    haveSavedCredentials := true }

/-! ## Lemmas about the bounded connect-wait loops -/

theorem waitPoll_le (net : Nat → Bool) :
    ∀ fuel t, t % POLL_INTERVAL_MS = 0 →
      waitPoll net fuel t ≤ max t CONNECT_TIMEOUT_MS := by
  intro fuel
  induction fuel with
  | zero =>
    intro t ht
    simpa [waitPoll] using le_max_left t CONNECT_TIMEOUT_MS
  | succ n ih =>
    intro t ht
    by_cases h1 : t < CONNECT_TIMEOUT_MS
    · by_cases h2 : net t
      · simpa [waitPoll, h1, h2] using le_max_left t CONNECT_TIMEOUT_MS
      · have hmod : (t + POLL_INTERVAL_MS) % POLL_INTERVAL_MS = 0 := by
          simp [Nat.add_mod, ht]
        have h3 := ih (t + POLL_INTERVAL_MS) hmod
        have h4 : t + POLL_INTERVAL_MS ≤ CONNECT_TIMEOUT_MS := by
          simp [POLL_INTERVAL_MS, CONNECT_TIMEOUT_MS] at ht h1 ⊢
          omega
        simp only [waitPoll, if_pos h1, if_neg h2]
        omega
    · simp [waitPoll, h1]

theorem waitPoll_success (net : Nat → Bool)
    (mono : ∀ t1 t2, t1 ≤ t2 → net t1 = true → net t2 = true)
    (t0 : Nat) (h0 : net t0 = true) (ht0 : t0 ≤ CONNECT_TIMEOUT_MS) :
    ∀ fuel t, CONNECT_TIMEOUT_MS ≤ t + POLL_INTERVAL_MS * fuel →
      net (waitPoll net fuel t) = true := by
  intro fuel
  induction fuel with
  | zero =>
    intro t hf
    simp only [Nat.mul_zero, Nat.add_zero] at hf
    simpa [waitPoll] using mono t0 t (le_trans ht0 hf) h0
  | succ n ih =>
    intro t hf
    by_cases h1 : t < CONNECT_TIMEOUT_MS
    · by_cases h2 : net t
      · simpa [waitPoll, h1, h2] using h2
      · have hf2 : CONNECT_TIMEOUT_MS ≤ (t + POLL_INTERVAL_MS) + POLL_INTERVAL_MS * n := by
          simp [POLL_INTERVAL_MS] at hf ⊢
          omega
        simpa [waitPoll, h1, h2] using ih (t + POLL_INTERVAL_MS) hf2
    · simpa [waitPoll, h1] using mono t0 t (le_trans ht0 (le_of_not_lt h1)) h0

theorem waitPoll_fuel_indep (net : Nat → Bool) :
    ∀ f1 f2 t, CONNECT_TIMEOUT_MS ≤ t + POLL_INTERVAL_MS * f1 →
      CONNECT_TIMEOUT_MS ≤ t + POLL_INTERVAL_MS * f2 →
      waitPoll net f1 t = waitPoll net f2 t := by
  intro f1
  induction f1 with
  | zero =>
    intro f2 t h1 h2
    cases f2 with
    | zero => rfl
    | succ m =>
      have hn : ¬ t < CONNECT_TIMEOUT_MS := by
        simp only [Nat.mul_zero, Nat.add_zero] at h1
        omega
      simp [waitPoll, hn]
  | succ n ih =>
    intro f2 t h1 h2
    cases f2 with
    | zero =>
      have hn : ¬ t < CONNECT_TIMEOUT_MS := by
        simp only [Nat.mul_zero, Nat.add_zero] at h2
        omega
      simp [waitPoll, hn]
    | succ m =>
      by_cases hc : t < CONNECT_TIMEOUT_MS
      · by_cases hnet : net t
        · simp [waitPoll, hc, hnet]
        · simp only [waitPoll, if_pos hc, if_neg hnet]
          exact ih m (t + POLL_INTERVAL_MS)
            (by simp [POLL_INTERVAL_MS] at h1 ⊢; omega)
            (by simp [POLL_INTERVAL_MS] at h2 ⊢; omega)
      · simp [waitPoll, hc]

theorem submitPoll_exit_le (net : Nat → Bool) :
    ∀ fuel t, t % POLL_INTERVAL_MS = 0 →
      (submitPoll net fuel t).2 ≤ max t CONNECT_TIMEOUT_MS := by
  intro fuel
  induction fuel with
  | zero =>
    intro t ht
    simpa [submitPoll] using le_max_left t CONNECT_TIMEOUT_MS
  | succ n ih =>
    intro t ht
    by_cases h1 : t < CONNECT_TIMEOUT_MS
    · by_cases h2 : net t
      · simpa [submitPoll, h1, h2] using le_max_left t CONNECT_TIMEOUT_MS
      · have hmod : (t + POLL_INTERVAL_MS) % POLL_INTERVAL_MS = 0 := by
          simp [Nat.add_mod, ht]
        have h3 := ih (t + POLL_INTERVAL_MS) hmod
        have h4 : t + POLL_INTERVAL_MS ≤ CONNECT_TIMEOUT_MS := by
          simp [POLL_INTERVAL_MS, CONNECT_TIMEOUT_MS] at ht h1 ⊢
          omega
        simp only [submitPoll, if_pos h1, if_neg h2]
        omega
    · simp [submitPoll, h1]

theorem submitPoll_fuel_indep (net : Nat → Bool) :
    ∀ f1 f2 t, CONNECT_TIMEOUT_MS ≤ t + POLL_INTERVAL_MS * f1 →
      CONNECT_TIMEOUT_MS ≤ t + POLL_INTERVAL_MS * f2 →
      submitPoll net f1 t = submitPoll net f2 t := by
  intro f1
  induction f1 with
  | zero =>
    intro f2 t h1 h2
    cases f2 with
    | zero => rfl
    | succ m =>
      have hn : ¬ t < CONNECT_TIMEOUT_MS := by
        simp only [Nat.mul_zero, Nat.add_zero] at h1
        omega
      simp [submitPoll, hn]
  | succ n ih =>
    intro f2 t h1 h2
    cases f2 with
    | zero =>
      have hn : ¬ t < CONNECT_TIMEOUT_MS := by
        simp only [Nat.mul_zero, Nat.add_zero] at h2
        omega
      simp [submitPoll, hn]
    | succ m =>
      by_cases hc : t < CONNECT_TIMEOUT_MS
      · by_cases hnet : net t
        · simp [submitPoll, hc, hnet]
        · simp only [submitPoll, if_pos hc, if_neg hnet]
          exact ih m (t + POLL_INTERVAL_MS)
            (by simp [POLL_INTERVAL_MS] at h1 ⊢; omega)
            (by simp [POLL_INTERVAL_MS] at h2 ⊢; omega)
      · simp [submitPoll, hc]

/-- C3: every bounded-wait connection attempt (the boot-time loop of
`setup()` and the submission-time loop of the two submit handlers)
leaves the waiting loop no later than `CONNECT_TIMEOUT_MS` plus one
polling interval, the polling interval is at most 250 ms, and the loop
result is independent of the iteration budget once it covers the
timeout window (the loop genuinely terminates via its timeout check). -/
theorem bounded_wait_terminates (net : Nat → Bool) :
    bootWaitExit net ≤ CONNECT_TIMEOUT_MS + POLL_INTERVAL_MS
    ∧ (submitPoll net WAIT_FUEL 0).2 ≤ CONNECT_TIMEOUT_MS + POLL_INTERVAL_MS
    ∧ POLL_INTERVAL_MS ≤ 250
    ∧ (∀ fuel, WAIT_FUEL ≤ fuel →
        waitPoll net fuel 0 = bootWaitExit net
        ∧ submitPoll net fuel 0 = submitPoll net WAIT_FUEL 0) := by
  refine ⟨?_, ?_, by decide, ?_⟩
  · have h := waitPoll_le net WAIT_FUEL 0 (by decide)
    simp only [Nat.zero_max] at h
    exact le_trans h (Nat.le_add_right _ _)
  · have h := submitPoll_exit_le net WAIT_FUEL 0 (by decide)
    simp only [Nat.zero_max] at h
    exact le_trans h (Nat.le_add_right _ _)
  · intro fuel hfuel
    constructor
    · exact waitPoll_fuel_indep net fuel WAIT_FUEL 0
        (by simp [POLL_INTERVAL_MS, CONNECT_TIMEOUT_MS, WAIT_FUEL] at hfuel ⊢; omega)
        (by decide)
    · exact submitPoll_fuel_indep net fuel WAIT_FUEL 0
        (by simp [POLL_INTERVAL_MS, CONNECT_TIMEOUT_MS, WAIT_FUEL] at hfuel ⊢; omega)
        (by decide)

/-- Witness for C3 at a network that never comes up and fuel 100. -/
theorem bounded_wait_terminates_witness :
    bootWaitExit (fun _ => false) ≤ CONNECT_TIMEOUT_MS + POLL_INTERVAL_MS
    ∧ waitPoll (fun _ => false) 100 0 = bootWaitExit (fun _ => false) :=
  ⟨(bounded_wait_terminates (fun _ => false)).1,
   ((bounded_wait_terminates (fun _ => false)).2.2.2 100 (by decide)).1⟩

/-- C2: at boot, an absent credential record yields role `PortalActive`
with the access point, DNS capture, portal routes and web server all up;
with a record present and a (monotone) network that accepts the join
within `CONNECT_TIMEOUT_MS`, the role reaches `Connected` and the
bounded wait's decision instant lies within `CONNECT_TIMEOUT_MS` of the
join request. -/
theorem boot_role (d0 : Device) (net : Nat → Bool) :
    (loadResult d0 = none →
      (setup d0 net).2 = Role.PortalActive
      ∧ (setup d0 net).1.softAPActive = true
      ∧ (setup d0 net).1.serverListening = true
      ∧ (setup d0 net).1.portalRoutesMounted = true
      ∧ (setup d0 net).1.dnsRunning = true)
    ∧ (∀ s p, loadResult d0 = some (s, p) →
      (∀ t1 t2, t1 ≤ t2 → net t1 = true → net t2 = true) →
      (∃ t0, t0 ≤ CONNECT_TIMEOUT_MS ∧ net t0 = true) →
      (setup d0 net).2 = Role.Connected
      ∧ bootWaitExit net ≤ CONNECT_TIMEOUT_MS) := by
  by_cases h : (loadCredentials d0).haveSavedCredentials
  · constructor
    · intro habs
      simp [loadResult, h] at habs
    · intro s p hrec mono hex
      obtain ⟨t0, ht0, h0⟩ := hex
      have hup : net (bootWaitExit net) = true := by
        have := waitPoll_success net mono t0 h0 ht0 WAIT_FUEL 0 (by decide)
        simpa [bootWaitExit] using this
      have hbound : bootWaitExit net ≤ CONNECT_TIMEOUT_MS := by
        have := waitPoll_le net WAIT_FUEL 0 (by decide)
        simpa [bootWaitExit, Nat.zero_max] using this
      refine ⟨?_, hbound⟩
      simp [setup, h, hup]
  · constructor
    · intro _
      simp [setup, h, startAPPortal]
    · intro s p hrec mono hex
      simp [loadResult, h] at hrec

/-- Witness for C2: a stored record and a network that is always up. -/
theorem boot_role_witness :
    (setup (initialDevice ("home") ("pw")) (fun _ => true)).2 = Role.Connected
    ∧ bootWaitExit (fun _ => true) ≤ CONNECT_TIMEOUT_MS :=
  (boot_role (initialDevice ("home") ("pw")) (fun _ => true)).2 ("home") ("pw")
    (by decide) (fun t1 t2 h h1 => h1) ⟨0, by decide, rfl⟩

/-! ## Reconnect rate limiting -/

theorem loopIter_cases (d : Device) (t : Nat) :
    (loopIter d false t
        = ({ d with lastReconnectAttempt := t }, some (d.savedSSID, d.savedPASS))
      ∧ RECONNECT_INTERVAL_MS < t - d.lastReconnectAttempt)
    ∨ loopIter d false t = (d, none) := by
  unfold loopIter
  by_cases hm : d.wifiMode = WifiMode.apsta ∨ d.wifiMode = WifiMode.sta
  · by_cases hh : d.haveSavedCredentials = true
    · by_cases h2 : RECONNECT_INTERVAL_MS < t - d.lastReconnectAttempt
      · refine Or.inl ⟨?_, h2⟩
        rcases hm with hm | hm <;> simp [hm, hh, h2]
      · refine Or.inr ?_
        rcases hm with hm | hm <;> simp [hm, hh, h2]
    · have hh2 : d.haveSavedCredentials = false := by
        simpa using hh
      exact Or.inr (by simp [hh2])
  · have hm1 : ¬ d.wifiMode = WifiMode.apsta := fun h => hm (Or.inl h)
    have hm2 : ¬ d.wifiMode = WifiMode.sta := fun h => hm (Or.inr h)
    exact Or.inr (by simp [hm1, hm2])

theorem loopRun_gap : ∀ (ts : List Nat) (d : Device),
    ts.Pairwise (fun a b => a ≤ b) →
    (∀ t ∈ ts, d.lastReconnectAttempt ≤ t) →
    (∀ a ∈ (loopRun d ts).2, RECONNECT_INTERVAL_MS < a - d.lastReconnectAttempt)
    ∧ (loopRun d ts).2.Pairwise (fun a b => RECONNECT_INTERVAL_MS < b - a) := by
  intro ts
  induction ts with
  | nil =>
    intro d _ _
    simp [loopRun]
  | cons t ts ih =>
    intro d hp hl
    have hd : d.lastReconnectAttempt ≤ t := hl t (by simp)
    have hts : ∀ x ∈ ts, t ≤ x := (List.pairwise_cons.mp hp).1
    have hp2 : ts.Pairwise (fun a b => a ≤ b) := (List.pairwise_cons.mp hp).2
    rcases loopIter_cases d t with ⟨heq, hgap⟩ | heq
    · have hih := ih { d with lastReconnectAttempt := t } hp2 (by
        intro x hx
        simpa using hts x hx)
      have hrun : (loopRun d (t :: ts)).2
          = t :: (loopRun { d with lastReconnectAttempt := t } ts).2 := by
        simp [loopRun, heq]
      constructor
      · intro a ha
        rw [hrun] at ha
        rcases List.mem_cons.mp ha with ha | ha
        · exact ha ▸ hgap
        · have h1 := hih.1 a ha
          simp only at h1
          calc RECONNECT_INTERVAL_MS < a - t := h1
            _ ≤ a - d.lastReconnectAttempt := Nat.sub_le_sub_left hd a
      · rw [hrun]
        refine List.pairwise_cons.mpr ⟨?_, hih.2⟩
        intro b hb
        have h1 := hih.1 b hb
        simpa using h1
    · have hih := ih d hp2 (by
        intro x hx
        exact le_trans hd (hts x hx))
      have hrun : (loopRun d (t :: ts)).2 = (loopRun d ts).2 := by
        simp [loopRun, heq]
      rw [hrun]
      exact hih

theorem window_count_le_one (l : List Nat)
    (hp : l.Pairwise (fun a b => RECONNECT_INTERVAL_MS < b - a)) (w : Nat) :
    l.countP (fun a => decide (w ≤ a ∧ a < w + RECONNECT_INTERVAL_MS)) ≤ 1 := by
  induction l with
  | nil => simp
  | cons a l ih =>
    have ha := (List.pairwise_cons.mp hp).1
    have hp2 := (List.pairwise_cons.mp hp).2
    rw [List.countP_cons]
    by_cases hw : w ≤ a ∧ a < w + RECONNECT_INTERVAL_MS
    · have hzero : l.countP (fun a => decide (w ≤ a ∧ a < w + RECONNECT_INTERVAL_MS)) = 0 := by
        rw [List.countP_eq_zero]
        intro b hb
        have hgap := ha b hb
        simp only [decide_eq_true_eq]
        omega
      rw [hzero]
      simp only [Nat.zero_add]
      split <;> simp
    · simpa [hw] using ih hp2

/-- C5: along any monotone sequence of `loop()` iterations with the link
down throughout (starting from a state whose last reconnect stamp does
not lie in the future), consecutive issued join re-attempts are more
than `RECONNECT_INTERVAL_MS` apart, hence any half-open window of length
`RECONNECT_INTERVAL_MS` contains at most one issued join attempt. -/
theorem reconnect_rate_limited (d : Device) (ts : List Nat) (w : Nat)
    (hsorted : ts.Pairwise (fun a b => a ≤ b))
    (hstart : ∀ t ∈ ts, d.lastReconnectAttempt ≤ t) :
    (loopRun d ts).2.countP
        (fun a => decide (w ≤ a ∧ a < w + RECONNECT_INTERVAL_MS)) ≤ 1
    ∧ (loopRun d ts).2.Pairwise (fun a b => RECONNECT_INTERVAL_MS < b - a) := by
  have h := loopRun_gap ts d hsorted hstart
  exact ⟨window_count_le_one _ h.2 w, h.2⟩

/-- Witness for C5: four link-down ticks over 32 s; attempts are issued
at 16000 and 32001 only, and the window starting at 16000 holds one. -/
theorem reconnect_rate_limited_witness :
    (loopRun staDevice [0, 16000, 17000, 32001]).2.countP
        (fun a => decide (16000 ≤ a ∧ a < 16000 + RECONNECT_INTERVAL_MS)) ≤ 1
    ∧ (loopRun staDevice [0, 16000, 17000, 32001]).2.Pairwise
        (fun a b => RECONNECT_INTERVAL_MS < b - a) :=
  reconnect_rate_limited staDevice [0, 16000, 17000, 32001] 16000
    (by decide) (by decide)

/-! ## Credential store -/

/-- C7: saving an empty identity (whatever the secret), or clearing the
store, makes a subsequent load report the record absent. -/
theorem absence_normalization (d : Device) (x : String) :
    loadResult (saveCredentials d ("") x) = none
    ∧ loadResult (clearCredentials d) = none := by
  constructor <;>
    simp [loadResult, loadCredentials, saveCredentials, clearCredentials]

/-- C9: `saveCredentials` marks credentials present even for an empty
identity: the in-memory state then violates the empty-means-absent
normalization that `loadResult` applies, and a later background loop
iteration with the link down issues a join request with the empty
identity. -/
theorem save_empty_identity_inconsistency (d : Device) (x : String) (t : Nat)
    (hmode : d.wifiMode = WifiMode.sta)
    (ht : RECONNECT_INTERVAL_MS < t - d.lastReconnectAttempt) :
    (saveCredentials d ("") x).haveSavedCredentials = true
    ∧ (saveCredentials d ("") x).savedSSID = ""
    ∧ loadResult (saveCredentials d ("") x) = none
    ∧ (loopIter (saveCredentials d ("") x) false t).2 = some ("", x) := by
  refine ⟨rfl, rfl, ?_, ?_⟩
  · simp [loadResult, loadCredentials, saveCredentials]
  · simp [loopIter, saveCredentials, hmode, ht]

/-- Witness for C9 on a concrete STA-mode device at `millis() = 20000`. -/
theorem save_empty_identity_inconsistency_witness :
    (saveCredentials staDevice ("") ("x")).haveSavedCredentials = true
    ∧ (loopIter (saveCredentials staDevice ("") ("x")) false 20000).2
        = some ("", "x") :=
  ⟨(save_empty_identity_inconsistency staDevice ("x") 20000 (by decide) (by decide)).1,
   (save_empty_identity_inconsistency staDevice ("x") 20000 (by decide) (by decide)).2.2.2⟩

/-! ## Submission validation -/

theorem apiWifiParse_error_status (req : ApiRequest)
    (jp : String → Option (Option String × Option String)) (e : HttpResponse)
    (h : apiWifiParse req jp = Except.error e) : e.status = 400 := by
  unfold apiWifiParse at h
  by_cases h1 : (req.contentTypeJson && decide (0 < req.plain.length)) = true
  · simp only [h1, if_true] at h
    cases hj : jp req.plain with
    | none =>
      simp [hj] at h
      rw [← h]
      rfl
    | some so =>
      simp only [hj] at h
      by_cases h2 : so.1.isSome = true
      · simp [h2] at h
      · simp only [h2, Bool.false_eq_true, if_false] at h
        by_cases h3 : hasArg req.formArgs ("ssid") = true
        · simp [h3] at h
        · simp only [h3, Bool.false_eq_true, if_false] at h
          by_cases h4 : decide (0 < req.plain.length) = true
          · simp only [h4, if_true] at h
            cases hr : rawScanField req.plain ("ssid=") with
            | some s => simp [hr] at h
            | none =>
              simp [hr] at h
              rw [← h]
              rfl
          · simp only [h4, Bool.false_eq_true, if_false] at h
            simp at h
            rw [← h]
            rfl
  · simp only [h1, Bool.false_eq_true, if_false] at h
    by_cases h3 : hasArg req.formArgs ("ssid") = true
    · simp [h3] at h
    · simp only [h3, Bool.false_eq_true, if_false] at h
      by_cases h4 : decide (0 < req.plain.length) = true
      · simp only [h4, if_true] at h
        cases hr : rawScanField req.plain ("ssid=") with
        | some s => simp [hr] at h
        | none =>
          simp [hr] at h
          rw [← h]
          rfl
      · simp only [h4, Bool.false_eq_true, if_false] at h
        simp at h
        rw [← h]
        rfl

/-- C1 counterexample: `POST /wifi` with the `ssid` field present but
empty is not rejected: the handler answers 200, and it overwrites the
stored identity (previously `old`) with the empty string. -/
theorem submit_empty_ssid_counterexample :
    (handleWifiSubmit (initialDevice ("old") ("oldpw")) [("ssid", "")]
        (fun _ => false)).2.status ≠ 400
    ∧ (handleWifiSubmit (initialDevice ("old") ("oldpw")) [("ssid", "")]
        (fun _ => false)).1.prefsSsid = ""
    ∧ (initialDevice ("old") ("oldpw")).prefsSsid = "old" := by
  decide

/-- C1 (amended): `POST /wifi` answers 400 and leaves the whole state
untouched exactly when the `ssid` argument is absent; whenever `ssid` is
present — even empty — the handler stores the trimmed fields.  Likewise
`POST /api/wifi` answers 400 without writing exactly when its extraction
chain yields no ssid at all; any extracted ssid — even empty — is
trimmed and stored. -/
theorem submit_validation (d : Device) (args : List (String × String))
    (req : ApiRequest) (jp : String → Option (Option String × Option String))
    (net : Nat → Bool) (ip : String) :
    (hasArg args ("ssid") = false →
      (handleWifiSubmit d args net).2.status = 400
      ∧ (handleWifiSubmit d args net).1 = d)
    ∧ (hasArg args ("ssid") = true →
      (handleWifiSubmit d args net).1.prefsSsid = arduinoTrim (getArg args ("ssid"))
      ∧ (handleWifiSubmit d args net).1.prefsPass = arduinoTrim (getArg args ("pass"))
      ∧ (handleWifiSubmit d args net).1.haveSavedCredentials = true)
    ∧ (∀ e, apiWifiParse req jp = Except.error e →
      (handleApiWifi d req jp net ip).2.status = 400
      ∧ (handleApiWifi d req jp net ip).1 = d)
    ∧ (∀ s p, apiWifiParse req jp = Except.ok (s, p) →
      (handleApiWifi d req jp net ip).1.prefsSsid = arduinoTrim s
      ∧ (handleApiWifi d req jp net ip).1.prefsPass = arduinoTrim p) := by
  refine ⟨?_, ?_, ?_, ?_⟩
  · intro h
    constructor <;> simp [handleWifiSubmit, h]
  · intro h
    rcases Bool.eq_false_or_eq_true (submitPoll net WAIT_FUEL 0).1 with hc | hc <;>
      refine ⟨?_, ?_, ?_⟩ <;>
        simp [handleWifiSubmit, h, hc, saveCredentials, stopAPPortal, setModeSta,
          startAPPortal]
  · intro e he
    refine ⟨?_, ?_⟩
    · simp only [handleApiWifi, he]
      exact apiWifiParse_error_status req jp e he
    · simp [handleApiWifi, he]
  · intro s p hok
    rcases Bool.eq_false_or_eq_true (submitPoll net WAIT_FUEL 0).1 with hc | hc <;>
      constructor <;>
        simp [handleApiWifi, hok, hc, saveCredentials, setModeSta]

/-- Witness for C1: an argument list without `ssid` is rejected with 400
and no write; one with `ssid` present leads to a (trimmed) store write. -/
theorem submit_validation_witness :
    (handleWifiSubmit staDevice [("pass", "pw")] (fun _ => false)).2.status = 400
    ∧ (handleWifiSubmit staDevice [("ssid", " hi ")]
        (fun _ => false)).1.prefsSsid = arduinoTrim (" hi ") :=
  ⟨((submit_validation staDevice [("pass", "pw")]
      { contentTypeJson := false, plain := "", formArgs := [] }
      (fun _ => none) (fun _ => false) ("")).1 (by decide)).1,
   ((submit_validation staDevice [("ssid", " hi ")]
      { contentTypeJson := false, plain := "", formArgs := [] }
      (fun _ => none) (fun _ => false) ("")).2.1 (by decide)).1⟩

/-! ## Store round trip -/

/-- C6 counterexample: `saveCredentials` performs no trimming: saving
identity `" a"` and secret `"b "` and loading gives back the fields
with their whitespace intact, not the trimmed strings. -/
theorem save_no_trim_counterexample :
    loadResult (saveCredentials (initialDevice ("") ("")) (" a") ("b "))
      = some (" a", "b ")
    ∧ arduinoTrim (" a") = "a"
    ∧ loadResult (saveCredentials (initialDevice ("") ("")) (" a") ("b "))
        ≠ some (arduinoTrim (" a"), arduinoTrim ("b ")) := by
  decide

/-- C6 (amended): for every identity of length 1–64 and secret of length
0–64, `save` then `load` returns exactly the input, unchanged: the store
does not trim.  Trimming of submitted fields is performed by the HTTP
handlers before they call `save`, as the `POST /wifi` handler shows. -/
theorem store_roundtrip (d : Device) (id sec : String)
    (h1 : 1 ≤ id.length) (h2 : id.length ≤ 64) (h3 : sec.length ≤ 64) :
    loadResult (saveCredentials d id sec) = some (id, sec)
    ∧ ∀ net,
      (handleWifiSubmit d [("ssid", id), ("pass", sec)] net).1.prefsSsid
          = arduinoTrim id
      ∧ (handleWifiSubmit d [("ssid", id), ("pass", sec)] net).1.prefsPass
          = arduinoTrim sec := by
  constructor
  · have hp : 0 < id.length := h1
    simp [loadResult, loadCredentials, saveCredentials, hp]
  · intro net
    have hhas : hasArg [("ssid", id), ("pass", sec)] ("ssid") = true := by
      simp [hasArg]
    have hg1 : getArg [("ssid", id), ("pass", sec)] ("ssid") = id := by
      simp [getArg]
    have hg2 : getArg [("ssid", id), ("pass", sec)] ("pass") = sec := by
      simp [getArg]
    rcases Bool.eq_false_or_eq_true (submitPoll net WAIT_FUEL 0).1 with hc | hc <;>
      constructor <;>
        simp [handleWifiSubmit, hhas, hg1, hg2, hc, saveCredentials, stopAPPortal,
          setModeSta, startAPPortal]

/-- Witness for C6 with identity `home` and secret `pw`. -/
theorem store_roundtrip_witness :
    loadResult (saveCredentials staDevice ("home") ("pw")) = some ("home", "pw")
    ∧ (handleWifiSubmit staDevice [("ssid", "home"), ("pass", "pw")]
        (fun _ => false)).1.prefsSsid = arduinoTrim ("home") :=
  ⟨(store_roundtrip staDevice ("home") ("pw") (by decide) (by decide) (by decide)).1,
   ((store_roundtrip staDevice ("home") ("pw") (by decide) (by decide) (by decide)).2
      (fun _ => false)).1⟩

/-! ## Submit event: portal teardown and API availability -/

/-- C4, evaluated at the failing input: boot with an empty store brings
the portal up (server listening, soft AP on); a successful `POST /wifi`
submission then stops the portal and registers the API routes, but the
web server is left stopped (`server.begin()` is never re-issued after
`stopAPPortal`), so the Status & Management API is not reachable.  And a
failing `POST /api/wifi` leaves the radio switched to STA with the soft
AP gone, without re-arming the portal. -/
theorem submit_leaves_server_stopped :
    ((setup (initialDevice ("") ("")) (fun _ => false)).1.serverListening = true
      ∧ (setup (initialDevice ("") ("")) (fun _ => false)).1.softAPActive = true)
    ∧ ((submitPoll (fun _ => true) WAIT_FUEL 0).1 = true
      ∧ (handleWifiSubmit (setup (initialDevice ("") ("")) (fun _ => false)).1
          [("ssid", "home"), ("pass", "pw")] (fun _ => true)).2.status = 200
      ∧ (handleWifiSubmit (setup (initialDevice ("") ("")) (fun _ => false)).1
          [("ssid", "home"), ("pass", "pw")] (fun _ => true)).1.softAPActive = false
      ∧ (handleWifiSubmit (setup (initialDevice ("") ("")) (fun _ => false)).1
          [("ssid", "home"), ("pass", "pw")] (fun _ => true)).1.apiRoutesMounted = true
      ∧ (handleWifiSubmit (setup (initialDevice ("") ("")) (fun _ => false)).1
          [("ssid", "home"), ("pass", "pw")] (fun _ => true)).1.serverListening = false)
    ∧ ((submitPoll (fun _ => false) WAIT_FUEL 0).1 = false
      ∧ (handleApiWifi (setup (initialDevice ("") ("")) (fun _ => false)).1
          { contentTypeJson := false, plain := "",
            formArgs := [("ssid", "home"), ("pass", "pw")] }
          (fun _ => none) (fun _ => false) ("")).2.status = 200
      ∧ (handleApiWifi (setup (initialDevice ("") ("")) (fun _ => false)).1
          { contentTypeJson := false, plain := "",
            formArgs := [("ssid", "home"), ("pass", "pw")] }
          (fun _ => none) (fun _ => false) ("")).1.wifiMode = WifiMode.sta
      ∧ (handleApiWifi (setup (initialDevice ("") ("")) (fun _ => false)).1
          { contentTypeJson := false, plain := "",
            formArgs := [("ssid", "home"), ("pass", "pw")] }
          (fun _ => none) (fun _ => false) ("")).1.softAPActive = false) := by
  decide

/-! ## Status endpoint -/

/-- C8 counterexample: with an empty store, after boot, the status body
always carries the `saved_ssid` member (here the empty string), so it is
not the exact two-member object the claim expects — under the code's
`mode` field name or the spec's `role` alike. -/
theorem status_exact_counterexample :
    (handleStatus (setup (initialDevice ("") ("")) (fun _ => false)).1
        { connected := false, ssid := "", ip := "" }).body
      = "\x7b\"connected\":false,\"mode\":\"AP\",\"saved_ssid\":\"\"\x7d"
    ∧ (handleStatus (setup (initialDevice ("") ("")) (fun _ => false)).1
        { connected := false, ssid := "", ip := "" }).body
      ≠ "\x7b\"connected\":false,\"role\":\"AP\"\x7d"
    ∧ (handleStatus (setup (initialDevice ("") ("")) (fun _ => false)).1
        { connected := false, ssid := "", ip := "" }).body
      ≠ "\x7b\"connected\":false,\"mode\":\"AP\"\x7d" := by
  decide

/-- C8 (amended): `GET /api/status` never fails: it always answers 200
JSON; when the link is up the body is the connected shape with the live
ssid and address, otherwise the disconnected shape with the radio mode
(`AP` or `STA`) and the always-present `saved_ssid` member; with an
empty store after boot the body is exactly
`{"connected":false,"mode":"AP","saved_ssid":""}` (braces elided). -/
theorem status_shape (d : Device) (w : WifiView) :
    (handleStatus d w).status = 200
    ∧ (handleStatus d w).contentType = "application/json"
    ∧ (w.connected = true →
        (handleStatus d w).body
          = serializeJson [("connected", JVal.b true), ("ssid", JVal.s w.ssid),
              ("ip", JVal.s w.ip)])
    ∧ (w.connected = false →
        ∃ m, (m = "AP" ∨ m = "STA")
          ∧ (handleStatus d w).body
            = serializeJson [("connected", JVal.b false), ("mode", JVal.s m),
                ("saved_ssid", JVal.s d.savedSSID)])
    ∧ (handleStatus (setup (initialDevice ("") ("")) (fun _ => false)).1
          { connected := false, ssid := "", ip := "" }).body
        = "\x7b\"connected\":false,\"mode\":\"AP\",\"saved_ssid\":\"\"\x7d" := by
  refine ⟨by simp [handleStatus], by simp [handleStatus], ?_, ?_, by decide⟩
  · intro hc
    simp [handleStatus, hc]
  · intro hc
    by_cases hm : d.wifiMode = WifiMode.ap
    · exact ⟨"AP", Or.inl rfl, by simp [handleStatus, hc, hm]⟩
    · exact ⟨"STA", Or.inr rfl, by simp [handleStatus, hc, hm]⟩

/-- Witness for C8 on a connected view and on a disconnected one. -/
theorem status_shape_witness :
    (handleStatus staDevice { connected := true, ssid := "home", ip := "10.0.0.2" }).body
      = serializeJson [("connected", JVal.b true), ("ssid", JVal.s ("home")),
          ("ip", JVal.s ("10.0.0.2"))]
    ∧ (handleStatus staDevice { connected := false, ssid := "", ip := "" }).status = 200 :=
  ⟨(status_shape staDevice { connected := true, ssid := "home", ip := "10.0.0.2" }).2.2.1
      (by decide),
   (status_shape staDevice { connected := false, ssid := "", ip := "" }).1⟩

/-! ## Raw-body fallback of the API submit -/

theorem isPrefixOf_append_self (l r : List Char) : l.isPrefixOf (l ++ r) = true := by
  induction l with
  | nil => simp [List.isPrefixOf]
  | cons c cs ih => simp [List.isPrefixOf, ih]

theorem subIndexOf_self_append (needle rest : List Char) (h : needle ≠ []) :
    subIndexOf (needle ++ rest) needle = some 0 := by
  cases needle with
  | nil => exact absurd rfl h
  | cons c cs =>
    rw [List.cons_append]
    simp [subIndexOf, isPrefixOf_append_self (c :: cs) rest]

theorem subIndexOf_singleton_none (l : List Char) (c : Char) (h : ¬ c ∈ l) :
    subIndexOf l [c] = none := by
  induction l with
  | nil => simp [subIndexOf]
  | cons a as ih =>
    simp only [List.mem_cons, not_or] at h
    have hpre : ([c]).isPrefixOf (a :: as) = false := by
      simp [List.isPrefixOf, h.1]
    simp [subIndexOf, hpre, ih h.2]

theorem plusToSpace_id (v : String) (h : ¬ '+' ∈ v.toList) : plusToSpace v = v := by
  unfold plusToSpace
  have hmap : v.toList.map (fun c => if c = '+' then ' ' else c) = v.toList := by
    have := List.map_congr_left (l := v.toList)
      (f := fun c => if c = '+' then ' ' else c) (g := id)
      (by
        intro a ha
        have : ¬ a = '+' := fun he => h (he ▸ ha)
        simp [this])
    simpa using this
  rw [hmap]
  rfl

/-- C10: the raw-body compatibility fallback extracts the value after
`ssid=` up to the next `&`, replacing only `+` by spaces — in particular
it does no percent-decoding, so a percent escape in the value reaches
the credential store verbatim, as the end-to-end conjunct shows. -/
theorem raw_fallback_no_percent_decoding (v : String)
    (hAmp : ¬ '&' ∈ v.toList) :
    rawScanField (("ssid=") ++ v) ("ssid=") = some (plusToSpace v)
    ∧ (¬ '+' ∈ v.toList → rawScanField (("ssid=") ++ v) ("ssid=") = some v)
    ∧ ∀ (d : Device) (jp : String → Option (Option String × Option String))
        (net : Nat → Bool) (ip : String),
        (handleApiWifi d
            { contentTypeJson := false, plain := ("ssid=") ++ v, formArgs := [] }
            jp net ip).1.prefsSsid
          = arduinoTrim (plusToSpace v) := by
  have hdata : (("ssid=") ++ v).toList = (("ssid=") : String).toList ++ v.toList :=
    String.data_append _ _
  have hne : (("ssid=") : String).toList ≠ [] := by decide
  have hfind : subIndexOf (("ssid=") ++ v).toList (("ssid=") : String).toList
      = some 0 := by
    rw [hdata]
    exact subIndexOf_self_append _ _ hne
  have hnoamp : ¬ '&' ∈ (("ssid=") ++ v).toList := by
    rw [hdata]
    intro hmem
    rcases List.mem_append.mp hmem with hmem | hmem
    · exact absurd hmem (by decide)
    · exact hAmp hmem
  have hjnone : subIndexOfFrom (("ssid=") ++ v).toList ['&'] 0 = none := by
    unfold subIndexOfFrom
    rw [List.drop_zero, subIndexOf_singleton_none _ _ hnoamp]
    rfl
  have hdrop : (("ssid=") ++ v).toList.drop (String.length ("ssid="))
      = v.toList := by
    rw [hdata]
    exact List.drop_left _ _
  have hlen : (("ssid=") ++ v).toList.length - String.length ("ssid=")
      = v.toList.length := by
    have h5 : String.length ("ssid=") = 5 := rfl
    have h5l : (("ssid=") : String).toList.length = 5 := rfl
    rw [hdata, List.length_append, h5, h5l]
    omega
  have hscan : rawScanField (("ssid=") ++ v) ("ssid=") = some (plusToSpace v) := by
    simp only [rawScanField, hfind, hjnone, Option.getD_none, Nat.zero_add,
      hdrop, hlen, List.take_length]
    rfl
  refine ⟨hscan, ?_, ?_⟩
  · intro hplus
    rw [hscan, plusToSpace_id v hplus]
  · intro d jp net ip
    have hparse : apiWifiParse
        { contentTypeJson := false, plain := ("ssid=") ++ v, formArgs := [] } jp
        = Except.ok (plusToSpace v,
            (rawScanField (("ssid=") ++ v) ("pass=")).getD ("")) := by
      unfold apiWifiParse
      have hlen2 : decide (0 < (("ssid=") ++ v).length) = true := by
        have h5 : (("ssid=") : String).length = 5 := rfl
        rw [String.length_append, h5]
        simp only [decide_eq_true_eq]
        omega
      simp only [Bool.false_and, Bool.false_eq_true, if_false, hasArg,
        List.any_nil, hlen2, if_true, hscan]
    rcases Bool.eq_false_or_eq_true (submitPoll net WAIT_FUEL 0).1 with hc | hc <;>
      simp [handleApiWifi, hparse, hc, saveCredentials, setModeSta]

/-- Witness for C10 at the percent-escaped value `a%40b`:
the escape is stored literally, not decoded to `a@b`. -/
theorem raw_fallback_witness :
    rawScanField (("ssid=") ++ ("a%40b")) ("ssid=") = some ("a%40b")
    ∧ (handleApiWifi staDevice
        { contentTypeJson := false, plain := ("ssid=") ++ ("a%40b"), formArgs := [] }
        (fun _ => none) (fun _ => false) ("")).1.prefsSsid
      = arduinoTrim (plusToSpace ("a%40b")) :=
  ⟨(raw_fallback_no_percent_decoding ("a%40b") (by decide)).2.1 (by decide),
   (raw_fallback_no_percent_decoding ("a%40b") (by decide)).2.2 staDevice
     (fun _ => none) (fun _ => false) ("")⟩

end WifiCfg
